import Mathlib

/-!
Shallow embedding of the Pocket CO2 detector firmware (src/User/main.c).

Machine `int` values are modelled as `Int`; C's truncating division and
remainder are `Int.tdiv` and `Int.tmod`.  Hardware side effects (OLED,
LEDs, vibration motor, SCD41 sensor, FLASH) are recorded as an event
trace (`Ev`).  Button reads (`GetButtons`) are modelled either as an
oracle `Nat → Nat` indexed by the read number (loops with one read per
iteration) or as a finite list of pending reads that each poll consumes
(busy-wait loops); a run that exhausts its list of reads is still
blocked and is modelled as `none`.  Unbounded `while (1)` loops carry a
fuel parameter bounding the number of iterations; `none` means the loop
was still running when the fuel ran out.
-/

/-- Mode enumeration from main.c (MODE_ON_DEMAND is commented out in the source). -/
def MODE_CONTINUOUS : Int := 0

def MODE_LOW_POWER : Int := 1

def MODE_STEALTH : Int := 2

def MODE_CALIBRATE : Int := 3

def MODE_TIMER : Int := 4

def MODE_COUNT : Int := 5

def ALERT_VIBRATION : Int := 0

def ALERT_LED : Int := 1

def ALERT_BOTH : Int := 2

def ALERT_COUNT : Int := 3

def MENU_START : Int := 0

def MENU_MODE : Int := 1

def MENU_FREQ : Int := 2

def MENU_ALERT : Int := 3

def MENU_TIME : Int := 4

def MENU_COUNT : Int := 5

def LED_GREEN : Nat := 0xc3

def LED_RED : Nat := 0xc4

/-- The persisted settings record (struct tagState in main.c). -/
structure STATE where
  iMode : Int
  iAlert : Int
  iFreq : Int
  iPeriod : Int
deriving DecidableEq, Repr

/-- Observable side effects of the firmware, recorded as trace events:
OLED calls, LED/motor pulses, SCD41 sensor calls and FLASH writes. -/
inductive Ev where
  | showTime (iSecs : Int)
  | showCurrent
  | oledPower (isOn : Bool)
  | blinkLED (pin : Nat) (ms : Int)
  | vibrate (ms : Int)
  | showAlert
  | scdStart (lowPowerMode : Bool)
  | scdStop
  | scdGetSample
  | scdRecalibrate (ppm : Int)
  | calResult (ok : Bool)
  | writeFlash
deriving DecidableEq, Repr

def isShowTime : Ev → Bool
  | Ev.showTime _ => true
  | _ => false

def isAlertEv : Ev → Bool
  | Ev.showAlert => true
  | _ => false

def isScdStart : Ev → Bool
  | Ev.scdStart _ => true
  | _ => false

def isScdStop : Ev → Bool
  | Ev.scdStop => true
  | _ => false

def isRecal : Ev → Bool
  | Ev.scdRecalibrate _ => true
  | _ => false

def isVibrate : Ev → Bool
  | Ev.vibrate _ => true
  | _ => false

def isWriteFlashEv : Ev → Bool
  | Ev.writeFlash => true
  | _ => false

def isOledOff : Ev → Bool
  | Ev.oledPower b => !b
  | _ => false

/-- The default record written by ReadFlash when the persisted data is
invalid: MODE_CONTINUOUS, alert 0 (vibration only), 30 second stealth
update, 5 minute timer period. -/
def defaultState : STATE :=
  { iMode := MODE_CONTINUOUS, iAlert := 0, iFreq := 30, iPeriod := 5 }

/-- WriteFlash: the persisted record becomes the in-memory record. -/
def WriteFlash (st : STATE) : STATE := st

/-- ReadFlash: load the record from FLASH; if `iPeriod` lies outside
[5,60] the data is not valid, so the defaults are installed and
immediately written back.  Returns (loaded record, FLASH contents after
the call, whether WriteFlash was invoked). -/
def ReadFlash (flash : STATE) : STATE × STATE × Bool :=
  if flash.iPeriod < 5 ∨ flash.iPeriod > 60 then
    (defaultState, WriteFlash defaultState, true)
  else
    (flash, flash, false)

/-- MENU_MODE action: `state.iMode++; if (state.iMode >= MODE_COUNT) state.iMode = 0;` -/
def modeNext (m : Int) : Int :=
  if m + 1 ≥ MODE_COUNT then 0 else m + 1

/-- MENU_FREQ action: `state.iFreq += 15; if (state.iFreq > 60) state.iFreq = 15;` -/
def freqNext (f : Int) : Int :=
  if f + 15 > 60 then 15 else f + 15

/-- MENU_ALERT action: `state.iAlert++; if (state.iAlert >= ALERT_COUNT) state.iAlert = 0;` -/
def alertNext (a : Int) : Int :=
  if a + 1 ≥ ALERT_COUNT then 0 else a + 1

/-- MENU_TIME action: `state.iPeriod += 5; if (state.iPeriod > 60) state.iPeriod = 5;` -/
def periodNext (p : Int) : Int :=
  if p + 5 > 60 then 5 else p + 5

def cycleMode (s : STATE) : STATE := { s with iMode := modeNext s.iMode }

def cycleFreq (s : STATE) : STATE := { s with iFreq := freqNext s.iFreq }

def cycleAlert (s : STATE) : STATE := { s with iAlert := alertNext s.iAlert }

def cyclePeriod (s : STATE) : STATE := { s with iPeriod := periodNext s.iPeriod }

/-- The CO2-driven LED cue performed after each sample in RunLowPower:
`if (_iCO2 < 1000) green; else if (_iCO2 > 1000 && _iCO2 < 2000) green, red; else red;` -/
def lowPowerCue (c : Int) : List Ev :=
  if c < 1000 then [Ev.blinkLED LED_GREEN 2]
  else if c > 1000 ∧ c < 2000 then [Ev.blinkLED LED_GREEN 2, Ev.blinkLED LED_RED 3]
  else [Ev.blinkLED LED_RED 3]

/-- Stealth vibration level: `iLevel = 1 + (_iCO2/500)` clamped to [1,6]. -/
def stealthLevel (c : Int) : Int :=
  let l := 1 + Int.tdiv c 500
  if l < 1 then 1 else if l > 6 then 6 else l

/-- The buzz loop in RunStealth: `for (j=0; j<iLevel; j++) { Vibrate(100); Delay_Ms(395); }` -/
def stealthBuzz : Nat → List Ev
  | 0 => []
  | n + 1 => Ev.vibrate 100 :: stealthBuzz n

/-- ShowTime renders iSecs as five characters (returned as their codes):
'0', '0'+iSecs/60, ':', '0'+(iSecs%60)/10, '0'+iSecs%10. -/
def ShowTime (iSecs : Int) : List Int :=
  [48, Int.tdiv iSecs 60 + 48, 58,
   Int.tdiv (Int.tmod iSecs 60) 10 + 48, Int.tmod iSecs 10 + 48]

/-- The branch of main() chosen for a given `state.iMode` after RunMenu
returns (the if/else-if chain before the continuous-mode loop). -/
inductive Branch where
  | timer
  | calibrate
  | lowpower
  | stealth
  | continuous
deriving DecidableEq, Repr

def mainDispatch (m : Int) : Branch :=
  if m = MODE_TIMER then Branch.timer
  else if m = MODE_CALIBRATE then Branch.calibrate
  else if m = MODE_LOW_POWER then Branch.lowpower
  else if m = MODE_STEALTH then Branch.stealth
  else Branch.continuous

/-- One call of GetButtons inside `while (GetButtons() != 0) Delay_Ms(20);`
consuming pending reads until a zero read is seen (the zero read included). -/
def waitRelease : List Nat → Option (List Nat)
  | [] => none
  | b :: bs => if b ≠ 0 then waitRelease bs else some bs

/-- `while (GetButtons() == 0) Delay_Ms(20);` the returned value is discarded. -/
def waitPress : List Nat → Option (List Nat)
  | [] => none
  | b :: bs => if b = 0 then waitPress bs else some bs

/-- `while ((j = GetButtons()) == 0) Delay_Ms(20);` returning the nonzero j. -/
def waitPressRead : List Nat → Option (Nat × List Nat)
  | [] => none
  | b :: bs => if b = 0 then waitPressRead bs else some (b, bs)

/-- First intermediate value of iTicks in one RunTimer iteration:
`if (j && iTicks == 0) { iTicks = 5; oledPower(1); }` -/
def tickA (j : Nat) (t : Int) : Int :=
  if j ≠ 0 ∧ t = 0 then 5 else t

/-- Second intermediate value: `if (i == 10) { ...; iTicks = 11; }` -/
def tickB (i : Nat) (t : Int) : Int :=
  if i = 10 then 11 else t

/-- Final value: `if (iTicks) { iTicks--; ... }` -/
def tickC (t : Int) : Int :=
  if t ≠ 0 then t - 1 else t

def timerTicksNext (j i : Nat) (t : Int) : Int :=
  tickC (tickB i (tickA j t))

/-- Events of one RunTimer loop iteration after ShowTime and the exit
check: conditional display power-ups/downs and the alternating LED blink
`BlinkLED((i & 1) ? LED_GREEN : LED_RED, 10)`. -/
def timerTickEvs (j i : Nat) (t : Int) : List Ev :=
  (if j ≠ 0 ∧ t = 0 then [Ev.oledPower true] else []) ++
  (if i = 10 ∧ tickA j t = 0 then [Ev.oledPower true] else []) ++
  (if tickB i (tickA j t) ≠ 0 ∧ tickB i (tickA j t) - 1 = 0 then [Ev.oledPower false] else []) ++
  [Ev.blinkLED (if i % 2 = 1 then LED_GREEN else LED_RED) 10]

/-- The countdown loop of RunTimer, `for (i = state.iPeriod*60; i >= 0; i--)`.
`i` is the current countdown value, `k` the index of the next button
read, `t` the running iTicks value.  Each iteration shows the time, then
returns early when both buttons are pressed.  The Bool is true when the
timer was cancelled by the exit gesture. -/
def runTimerLoop (btn : Nat → Nat) : Nat → Nat → Int → List Ev × Bool
  | 0, k, t =>
    if btn k = 3 then ([Ev.showTime 0], true)
    else ([Ev.showTime 0] ++ timerTickEvs (btn k) 0 t, false)
  | i + 1, k, t =>
    if btn k = 3 then ([Ev.showTime (Int.ofNat (i + 1))], true)
    else
      let rest := runTimerLoop btn i (k + 1) (timerTicksNext (btn k) (i + 1) t)
      (Ev.showTime (Int.ofNat (i + 1)) :: (timerTickEvs (btn k) (i + 1) t ++ rest.1), rest.2)

/-- RunTimer: count down from iPeriod*60 seconds; when the countdown
completes (no early exit), invoke ShowAlert once. -/
def RunTimer (btn : Nat → Nat) (st : STATE) : List Ev :=
  if st.iPeriod * 60 < 0 then [Ev.showAlert]
  else
    let r := runTimerLoop btn (st.iPeriod * 60).toNat 0 5
    if r.2 then r.1 else r.1 ++ [Ev.showAlert]

/-- The body of RunLowPower's while(1): one button read per iteration,
exit (with scd41_stop) on mask 3, display wake on a single button when
the display is off, a sample plus LED cue every 120 ticks (30 s), and
display auto-off when iUITick reaches 0.  `sIdx` indexes the CO2 oracle. -/
def runLowPowerLoop (co2 : Nat → Int) : List Nat → Nat → Int → Int → Option (List Ev)
  | [], _, _, _ => none
  | b :: bs, sIdx, iUITick, iSampleTick =>
    if b = 3 then some [Ev.scdStop]
    else
      let evA : List Ev :=
        if b ≠ 0 ∧ iUITick = 0 then [Ev.oledPower true, Ev.showCurrent] else []
      let uiT : Int := if b ≠ 0 ∧ iUITick = 0 then 20 else iUITick
      let sT : Int := iSampleTick + 1
      let evB : List Ev :=
        if sT = 120 then Ev.scdGetSample :: lowPowerCue (co2 sIdx) else []
      let sIdx' : Nat := if sT = 120 then sIdx + 1 else sIdx
      let sT' : Int := if sT = 120 then 0 else sT
      let evC : List Ev :=
        if uiT > 0 ∧ uiT - 1 = 0 then [Ev.oledPower false] else []
      let uiT' : Int := if uiT > 0 then uiT - 1 else uiT
      match runLowPowerLoop co2 bs sIdx' uiT' sT' with
      | none => none
      | some tr => some (evA ++ evB ++ evC ++ tr)

/-- RunLowPower: start the sensor in low power mode, then loop. -/
def RunLowPower (co2 : Nat → Int) (bs : List Nat) : Option (List Ev) :=
  match runLowPowerLoop co2 bs 0 20 0 with
  | none => none
  | some tr => some (Ev.scdStart true :: tr)

/-- The body of RunStealth's while(1): exit (with scd41_stop) on mask 3;
a sample every 20 quarter-second ticks updates the level; when
`iTick % iUpdate == iUpdate-1` the buzz loop emits `iLevel` pulses and
advances iTick by 2 per pulse. -/
def runStealthLoop (co2 : Nat → Int) (iUpdate : Int) :
    List Nat → Nat → Int → Int → Option (List Ev)
  | [], _, _, _ => none
  | b :: bs, sIdx, iTick, iLevel =>
    if b = 3 then some [Ev.scdStop]
    else
      let evS : List Ev := if Int.tmod iTick 20 = 19 then [Ev.scdGetSample] else []
      let sIdx' : Nat := if Int.tmod iTick 20 = 19 then sIdx + 1 else sIdx
      let lvl : Int := if Int.tmod iTick 20 = 19 then stealthLevel (co2 sIdx) else iLevel
      let evB : List Ev :=
        if Int.tmod iTick iUpdate = iUpdate - 1 then stealthBuzz lvl.toNat else []
      let iTick' : Int :=
        if Int.tmod iTick iUpdate = iUpdate - 1 then iTick + 2 * lvl else iTick
      match runStealthLoop co2 iUpdate bs sIdx' (iTick' + 1) lvl with
      | none => none
      | some tr => some (evS ++ evB ++ tr)

/-- RunStealth: intro screen, wait for release then for any press,
display off, start the sensor in normal mode, then loop. -/
def RunStealth (co2 : Nat → Int) (st : STATE) (bs : List Nat) : Option (List Ev) :=
  match waitRelease bs with
  | none => none
  | some bs1 =>
    match waitPress bs1 with
    | none => none
    | some bs2 =>
      match runStealthLoop co2 (st.iFreq * 4) bs2 0 0 1 with
      | none => none
      | some tr => some (Ev.oledPower false :: Ev.scdStart false :: tr)

/-- The calibration countdown `for (i=210; i>=0; i--)`: show the time,
read the buttons, quit with scd41_stop on mask 3, else wait a second.
Returns (trace, quitEarly, remaining reads). -/
def calCountdown : Nat → List Nat → Option (List Ev × Bool × List Nat)
  | _, [] => none
  | i, b :: bs =>
    if b = 3 then some ([Ev.showTime (Int.ofNat i), Ev.scdStop], true, bs)
    else
      match i with
      | 0 => some ([Ev.showTime 0], false, bs)
      | i' + 1 =>
        match calCountdown i' bs with
        | none => none
        | some (tr, q, rest) => some (Ev.showTime (Int.ofNat (i' + 1)) :: tr, q, rest)

/-- RunCalibrate: intro screen, wait for release then a press j; exit at
once when j == 3; otherwise start the sensor, run the 210..0 countdown,
stop the sensor, force recalibration with reference 423, display the
result and wait for a button press to exit.  `recalOk` is the sensor's
answer (`SCD_SUCCESS` or not). -/
def RunCalibrate (bs : List Nat) (recalOk : Bool) : Option (List Ev) :=
  match waitRelease bs with
  | none => none
  | some bs1 =>
    match waitPressRead bs1 with
    | none => none
    | some (j, bs2) =>
      if j = 3 then some []
      else
        match calCountdown 210 bs2 with
        | none => none
        | some (tr, true, _) => some (Ev.scdStart false :: tr)
        | some (tr, false, bs3) =>
          match waitPress bs3 with
          | none => none
          | some _ =>
            some (Ev.scdStart false :: tr ++
              [Ev.scdStop, Ev.scdRecalibrate 423, Ev.calResult recalOk])

/-- The inner `for (i=0; i<61; i+=3)` poll loop of the continuous-mode
while(1): 21 button reads; on mask 3 report the exit. -/
def contInner : List Nat → Nat → Option (List Nat × Bool)
  | bs, 0 => some (bs, false)
  | [], _ + 1 => none
  | b :: bs, n + 1 => if b = 3 then some (bs, true) else contInner bs n

/-- The continuous-mode while(1) of main(): sample, bump the static
iSample counter, run the display-off check
`if (iSample == 16 && state.iMode != MODE_CONTINUOUS) oledPower(0);`,
show the reading, then poll for 5 seconds; on the exit gesture stop the
sensor and go back to the menu.  `fuel` bounds the number of iterations. -/
def contLoop (st : STATE) : Nat → List Nat → Nat → Option (List Ev)
  | 0, _, _ => none
  | fuel + 1, bs, iSample =>
    let s : Nat := iSample + 1
    let evs : List Ev :=
      Ev.scdGetSample ::
        ((if s = 16 ∧ st.iMode ≠ MODE_CONTINUOUS then [Ev.oledPower false] else []) ++
          [Ev.showCurrent])
    match contInner bs 21 with
    | none => none
    | some (_, true) => some (evs ++ [Ev.scdStop])
    | some (bs', false) =>
      match contLoop st fuel bs' s with
      | none => none
      | some tr => some (evs ++ tr)

/-- The continuous branch of main(): start the sensor in normal mode and
enter the sampling loop with the current value of the static iSample. -/
def RunContinuous (st : STATE) (fuel : Nat) (bs : List Nat) (iSample0 : Nat) :
    Option (List Ev) :=
  match contLoop st fuel bs iSample0 with
  | none => none
  | some tr => some (Ev.scdStart false :: tr)

/-- The menu while(!bDone) loop: wait for all buttons to be released,
wait for a press, then read y once more; bit 0 advances the cursor with
wraparound, bit 1 (when bit 0 is clear) activates the selected item;
Start finishes the loop and returns the current record. -/
def menuLoop : Nat → List Nat → Int → STATE → Option STATE
  | 0, _, _, _ => none
  | fuel + 1, bs, sel, st =>
    match waitRelease bs with
    | none => none
    | some bs1 =>
      match waitPress bs1 with
      | none => none
      | some bs2 =>
        match bs2 with
        | [] => none
        | y :: bs3 =>
          if y % 2 = 1 then
            menuLoop fuel bs3 (if sel + 1 = MENU_COUNT then 0 else sel + 1) st
          else if y / 2 % 2 = 1 then
            if sel = MENU_START then some st
            else if sel = MENU_MODE then menuLoop fuel bs3 sel (cycleMode st)
            else if sel = MENU_FREQ then menuLoop fuel bs3 sel (cycleFreq st)
            else if sel = MENU_ALERT then menuLoop fuel bs3 sel (cycleAlert st)
            else if sel = MENU_TIME then menuLoop fuel bs3 sel (cyclePeriod st)
            else menuLoop fuel bs3 sel st
          else menuLoop fuel bs3 sel st

/-- RunMenu: run the menu loop from cursor position 0 with oldstate
saved at entry; on leaving via Start,
`if (state.iMode != MODE_CALIBRATE && memcmp(&state, &oldstate, sizeof(state)) != 0) WriteFlash();`.
Returns the final record and the trace of FLASH writes. -/
def RunMenu (fuel : Nat) (bs : List Nat) (oldstate : STATE) :
    Option (STATE × List Ev) :=
  match menuLoop fuel bs 0 oldstate with
  | none => none
  | some st =>
    some (st, if st.iMode ≠ MODE_CALIBRATE ∧ st ≠ oldstate then [Ev.writeFlash] else [])

theorem clamp16 (l : Int) : (if l < 1 then 1 else if l > 6 then 6 else l) = min 6 (max 1 l) := by
  simp only [min_def, max_def]
  split_ifs <;> omega

theorem stealthBuzz_countP (n : Nat) : (stealthBuzz n).countP isVibrate = n := by
  induction n with
  | zero => rfl
  | succ n ih => simp [stealthBuzz, List.countP_cons, isVibrate, ih]

/-- Claim C1: ReadFlash treats the persisted record as valid iff iPeriod is
in [5,60]; an invalid record is replaced whole by the defaults
(Continuous, Vibration, 30, 5), which are immediately persisted, and a
second load after the repair yields the identical default record with no
further write; a valid record is left unchanged. -/
theorem readFlash_selfheals (flash : STATE) :
    ((flash.iPeriod < 5 ∨ flash.iPeriod > 60) →
      ReadFlash flash = (defaultState, defaultState, true) ∧
      ReadFlash (ReadFlash flash).2.1 = (defaultState, defaultState, false)) ∧
    (5 ≤ flash.iPeriod ∧ flash.iPeriod ≤ 60 →
      ReadFlash flash = (flash, flash, false)) := by
  refine ⟨fun h => ?_, fun h => ?_⟩
  · have h1 : ReadFlash flash = (defaultState, defaultState, true) := by
      rw [ReadFlash, if_pos h]; rfl
    refine ⟨h1, ?_⟩
    rw [h1]
    rw [ReadFlash, if_neg (by decide)]
  · rw [ReadFlash, if_neg (by omega)]

/-- Witness for C1: the all-zero record is invalid and self-heals to the
defaults; a record with iPeriod = 30 is valid and untouched. -/
theorem readFlash_selfheals_witness :
    (ReadFlash ⟨0, 0, 0, 0⟩ = (defaultState, defaultState, true) ∧
      ReadFlash (ReadFlash ⟨0, 0, 0, 0⟩).2.1 = (defaultState, defaultState, false)) ∧
    ReadFlash ⟨0, 0, 15, 30⟩ = (⟨0, 0, 15, 30⟩, ⟨0, 0, 15, 30⟩, false) :=
  ⟨(readFlash_selfheals ⟨0, 0, 0, 0⟩).1 (by decide),
   (readFlash_selfheals ⟨0, 0, 15, 30⟩).2 (by decide)⟩

/-- Claim C2: on leaving the menu via Start, WriteFlash runs exactly once
iff the record differs from its value at menu entry and the selected
mode is not Calibrate; with mode Calibrate or an unchanged record no
write occurs. -/
theorem runMenu_save_iff_changed (fuel : Nat) (bs : List Nat) (st0 st : STATE) (tr : List Ev)
    (h : RunMenu fuel bs st0 = some (st, tr)) :
    tr.countP isWriteFlashEv ≤ 1 ∧
    (tr.countP isWriteFlashEv = 1 ↔ (st ≠ st0 ∧ st.iMode ≠ MODE_CALIBRATE)) := by
  rw [RunMenu] at h
  rcases hm : menuLoop fuel bs 0 st0 with _ | st'
  · rw [hm] at h; exact absurd h (by simp)
  · rw [hm] at h
    have h1 : st' = st ∧
        (if st'.iMode ≠ MODE_CALIBRATE ∧ st' ≠ st0 then [Ev.writeFlash] else []) = tr := by
      simpa using h
    obtain ⟨rfl, h2⟩ := h1
    by_cases hc : st'.iMode ≠ MODE_CALIBRATE ∧ st' ≠ st0
    · rw [if_pos hc] at h2
      rw [← h2]
      refine ⟨by simp [List.countP_cons, isWriteFlashEv], ?_⟩
      simp only [List.countP_cons, List.countP_nil, isWriteFlashEv]
      exact ⟨fun _ => ⟨hc.2, hc.1⟩, fun _ => by norm_num⟩
    · rw [if_neg hc] at h2
      rw [← h2]
      refine ⟨by simp, ?_⟩
      simp only [List.countP_nil]
      constructor
      · intro h0; exact absurd h0 (by norm_num)
      · intro hx; exact absurd ⟨hx.2, hx.1⟩ hc

/-- Witness for C2: pressing button 1 on Start at once leaves the record
unchanged and performs no FLASH write. -/
theorem runMenu_save_iff_changed_witness :
    ([] : List Ev).countP isWriteFlashEv ≤ 1 ∧
    (([] : List Ev).countP isWriteFlashEv = 1 ↔
      (defaultState ≠ defaultState ∧ defaultState.iMode ≠ MODE_CALIBRATE)) :=
  runMenu_save_iff_changed 10 [0, 2, 2] defaultState defaultState [] (by decide)

/-- Counterexample to claim C5: at the boundary co2Ppm = 1000 the code's
middle branch `_iCO2 > 1000 && _iCO2 < 2000` is false, so the cue is the
red-only else branch, not the claimed green-then-red branch. -/
theorem lowPowerCue_boundary_cex :
    lowPowerCue 1000 = [Ev.blinkLED LED_RED 3] ∧
    lowPowerCue 1000 ≠ [Ev.blinkLED LED_GREEN 2, Ev.blinkLED LED_RED 3] := by
  decide

/-- Claim C5 as amended: below 1000 a green blink only; strictly between
1000 and 2000 green then red; at exactly 1000, or at 2000 and above, a
red blink only (the middle band excludes both endpoints). -/
theorem lowPowerCue_amended (c : Int) :
    (c < 1000 → lowPowerCue c = [Ev.blinkLED LED_GREEN 2]) ∧
    (1000 < c → c < 2000 →
      lowPowerCue c = [Ev.blinkLED LED_GREEN 2, Ev.blinkLED LED_RED 3]) ∧
    ((c = 1000 ∨ 2000 ≤ c) → lowPowerCue c = [Ev.blinkLED LED_RED 3]) := by
  refine ⟨fun h => ?_, fun h1 h2 => ?_, fun h => ?_⟩
  · rw [lowPowerCue, if_pos h]
  · rw [lowPowerCue, if_neg (by omega), if_pos ⟨h1, h2⟩]
  · rw [lowPowerCue, if_neg (by omega), if_neg (by omega)]

/-- Witness for the amended C5 at 500, 1500 and the boundary 1000. -/
theorem lowPowerCue_amended_witness :
    lowPowerCue 500 = [Ev.blinkLED LED_GREEN 2] ∧
    lowPowerCue 1500 = [Ev.blinkLED LED_GREEN 2, Ev.blinkLED LED_RED 3] ∧
    lowPowerCue 1000 = [Ev.blinkLED LED_RED 3] :=
  ⟨(lowPowerCue_amended 500).1 (by decide),
   (lowPowerCue_amended 1500).2.1 (by decide) (by decide),
   (lowPowerCue_amended 1000).2.2 (Or.inl rfl)⟩

/-- Claim C7: the stealth vibration level is clamp(1 + co2/500, 1, 6) with
truncating division, the buzz loop emits exactly that many pulses per
update cycle, and for co2Ppm = 750 the level is 2 with exactly 2 pulses. -/
theorem stealth_level_and_pulses (c : Int) :
    stealthLevel c = min 6 (max 1 (1 + Int.tdiv c 500)) ∧
    (stealthBuzz (stealthLevel c).toNat).countP isVibrate = (stealthLevel c).toNat ∧
    stealthLevel 750 = 2 ∧
    stealthBuzz (stealthLevel 750).toNat = [Ev.vibrate 100, Ev.vibrate 100] :=
  ⟨clamp16 (1 + Int.tdiv c 500), stealthBuzz_countP _, by decide, by decide⟩

theorem cycleMode_iterate (n : Nat) (s : STATE) :
    cycleMode^[n] s = { s with iMode := modeNext^[n] s.iMode } := by
  induction n generalizing s with
  | zero => rfl
  | succ n ih =>
    rw [Function.iterate_succ_apply, Function.iterate_succ_apply, ih]
    rfl

theorem cycleFreq_iterate (n : Nat) (s : STATE) :
    cycleFreq^[n] s = { s with iFreq := freqNext^[n] s.iFreq } := by
  induction n generalizing s with
  | zero => rfl
  | succ n ih =>
    rw [Function.iterate_succ_apply, Function.iterate_succ_apply, ih]
    rfl

theorem cycleAlert_iterate (n : Nat) (s : STATE) :
    cycleAlert^[n] s = { s with iAlert := alertNext^[n] s.iAlert } := by
  induction n generalizing s with
  | zero => rfl
  | succ n ih =>
    rw [Function.iterate_succ_apply, Function.iterate_succ_apply, ih]
    rfl

theorem cyclePeriod_iterate (n : Nat) (s : STATE) :
    cyclePeriod^[n] s = { s with iPeriod := periodNext^[n] s.iPeriod } := by
  induction n generalizing s with
  | zero => rfl
  | succ n ih =>
    rw [Function.iterate_succ_apply, Function.iterate_succ_apply, ih]
    rfl

theorem modeNext_cycle (m : Int) (h0 : 0 ≤ m) (h1 : m < 5) : modeNext^[5] m = m := by
  interval_cases m <;> decide

theorem freqNext_cycle (f : Int) (h : f = 15 ∨ f = 30 ∨ f = 45 ∨ f = 60) :
    freqNext^[4] f = f := by
  rcases h with h | h | h | h <;> subst h <;> decide

theorem alertNext_cycle (a : Int) (h0 : 0 ≤ a) (h1 : a < 3) : alertNext^[3] a = a := by
  interval_cases a <;> decide

theorem periodNext_cycle (p : Int)
    (h : p = 5 ∨ p = 10 ∨ p = 15 ∨ p = 20 ∨ p = 25 ∨ p = 30 ∨ p = 35 ∨ p = 40 ∨
      p = 45 ∨ p = 50 ∨ p = 55 ∨ p = 60) :
    periodNext^[12] p = p := by
  rcases h with h | h | h | h | h | h | h | h | h | h | h | h <;> subst h <;> decide

/-- Claim C8: menu field cycling is closed under wraparound — 5 Mode
activations, 4 UpdateFreq activations (through 15,30,45,60), 3 Alert
activations and 12 Timer activations (5,10,…,60 in steps of 5) each
return the respective field to its original value, and each activation
mutates only its own field. -/
theorem menu_cycling_wraparound (s : STATE) :
    ((0 ≤ s.iMode ∧ s.iMode < MODE_COUNT) → cycleMode^[5] s = s) ∧
    ((s.iFreq = 15 ∨ s.iFreq = 30 ∨ s.iFreq = 45 ∨ s.iFreq = 60) → cycleFreq^[4] s = s) ∧
    (freqNext 15 = 30 ∧ freqNext 30 = 45 ∧ freqNext 45 = 60 ∧ freqNext 60 = 15) ∧
    ((0 ≤ s.iAlert ∧ s.iAlert < ALERT_COUNT) → cycleAlert^[3] s = s) ∧
    ((s.iPeriod = 5 ∨ s.iPeriod = 10 ∨ s.iPeriod = 15 ∨ s.iPeriod = 20 ∨
      s.iPeriod = 25 ∨ s.iPeriod = 30 ∨ s.iPeriod = 35 ∨ s.iPeriod = 40 ∨
      s.iPeriod = 45 ∨ s.iPeriod = 50 ∨ s.iPeriod = 55 ∨ s.iPeriod = 60) →
      cyclePeriod^[12] s = s) ∧
    (periodNext 5 = 10 ∧ periodNext 55 = 60 ∧ periodNext 60 = 5) ∧
    ((cycleMode s).iAlert = s.iAlert ∧ (cycleMode s).iFreq = s.iFreq ∧
      (cycleMode s).iPeriod = s.iPeriod) ∧
    ((cycleFreq s).iMode = s.iMode ∧ (cycleFreq s).iAlert = s.iAlert ∧
      (cycleFreq s).iPeriod = s.iPeriod) ∧
    ((cycleAlert s).iMode = s.iMode ∧ (cycleAlert s).iFreq = s.iFreq ∧
      (cycleAlert s).iPeriod = s.iPeriod) ∧
    ((cyclePeriod s).iMode = s.iMode ∧ (cyclePeriod s).iAlert = s.iAlert ∧
      (cyclePeriod s).iFreq = s.iFreq) := by
  refine ⟨fun h => ?_, fun h => ?_, by decide, fun h => ?_, fun h => ?_, by decide,
    ⟨rfl, rfl, rfl⟩, ⟨rfl, rfl, rfl⟩, ⟨rfl, rfl, rfl⟩, ⟨rfl, rfl, rfl⟩⟩
  · rw [cycleMode_iterate, modeNext_cycle s.iMode h.1 h.2]
  · rw [cycleFreq_iterate, freqNext_cycle s.iFreq h]
  · rw [cycleAlert_iterate, alertNext_cycle s.iAlert h.1 h.2]
  · rw [cyclePeriod_iterate, periodNext_cycle s.iPeriod h]

/-- Witness for C8 at the default record (mode 0, alert 0, freq 30, period 5). -/
theorem menu_cycling_wraparound_witness :
    cycleMode^[5] defaultState = defaultState ∧
    cycleFreq^[4] defaultState = defaultState ∧
    cycleAlert^[3] defaultState = defaultState ∧
    cyclePeriod^[12] defaultState = defaultState :=
  ⟨(menu_cycling_wraparound defaultState).1 (by decide),
   (menu_cycling_wraparound defaultState).2.1 (by decide),
   (menu_cycling_wraparound defaultState).2.2.2.1 (by decide),
   (menu_cycling_wraparound defaultState).2.2.2.2.1 (by decide)⟩

theorem runTimerLoop_head (btn : Nat → Nat) (i k : Nat) (t : Int) :
    (runTimerLoop btn i k t).1.head? = some (Ev.showTime (Int.ofNat i)) := by
  cases i with
  | zero => rw [runTimerLoop]; split <;> rfl
  | succ n => rw [runTimerLoop]; split <;> rfl

/-- Claim C10: ShowTime renders iSecs as the five characters '0',
'0'+iSecs/60, ':', then the two seconds digits; for 0 ≤ iSecs < 600 this
is a correct decimal 0M:SS rendering (every position a decimal digit and
the digits decode back to iSecs), while the first ShowTime call of
RunTimer uses iSecs = timerPeriodMinutes*60, whose minutes character
'0'+p exceeds '9' for every period p ≥ 10; and iSecs % 10 equals
(iSecs % 60) % 10 for every non-negative iSecs. -/
theorem showTime_rendering (iSecs p : Int) (btn : Nat → Nat) (st : STATE) :
    (0 ≤ iSecs → iSecs < 600 →
      ShowTime iSecs =
        [48, iSecs / 60 + 48, 58, iSecs % 60 / 10 + 48, iSecs % 60 % 10 + 48] ∧
      (48 ≤ iSecs / 60 + 48 ∧ iSecs / 60 + 48 ≤ 57) ∧
      (48 ≤ iSecs % 60 / 10 + 48 ∧ iSecs % 60 / 10 + 48 ≤ 57) ∧
      (48 ≤ iSecs % 60 % 10 + 48 ∧ iSecs % 60 % 10 + 48 ≤ 57) ∧
      (iSecs / 60) * 60 + (iSecs % 60 / 10) * 10 + iSecs % 60 % 10 = iSecs) ∧
    (10 ≤ p → (ShowTime (p * 60)).get? 1 = some (p + 48) ∧ 57 < p + 48) ∧
    (0 ≤ iSecs → Int.tmod iSecs 10 = Int.tmod (Int.tmod iSecs 60) 10) ∧
    (0 ≤ st.iPeriod → (RunTimer btn st).head? = some (Ev.showTime (st.iPeriod * 60))) := by
  refine ⟨fun h0 h6 => ?_, fun hp => ?_, fun h0 => ?_, fun hp => ?_⟩
  · have d1 : Int.tdiv iSecs 60 = iSecs / 60 := Int.tdiv_eq_ediv h0 (by norm_num)
    have h60 : (0 : Int) ≤ iSecs % 60 := Int.emod_nonneg iSecs (by norm_num)
    have d2 : Int.tmod iSecs 60 = iSecs % 60 := Int.tmod_eq_emod h0 (by norm_num)
    have d3 : Int.tdiv (Int.tmod iSecs 60) 10 = iSecs % 60 / 10 := by
      rw [d2]; exact Int.tdiv_eq_ediv h60 (by norm_num)
    have d4 : Int.tmod iSecs 10 = iSecs % 10 := Int.tmod_eq_emod h0 (by norm_num)
    have d5 : iSecs % 10 = iSecs % 60 % 10 := by omega
    refine ⟨?_, ⟨by omega, by omega⟩, ⟨by omega, by omega⟩, ⟨by omega, by omega⟩, by omega⟩
    rw [ShowTime, d1, d3, d4, d5]
  · have hdiv : Int.tdiv (p * 60) 60 = p := by
      rw [Int.tdiv_eq_ediv (by omega) (by norm_num)]
      exact Int.mul_ediv_cancel p (by norm_num)
    exact ⟨by simp [ShowTime, hdiv], by omega⟩
  · have h60 : (0 : Int) ≤ iSecs % 60 := Int.emod_nonneg iSecs (by norm_num)
    rw [Int.tmod_eq_emod h0 (by norm_num), Int.tmod_eq_emod h0 (by norm_num),
      Int.tmod_eq_emod h60 (by norm_num)]
    omega
  · rw [RunTimer, if_neg (by omega)]
    have hh := runTimerLoop_head btn (st.iPeriod * 60).toNat 0 5
    have hofNat : (Int.ofNat (st.iPeriod * 60).toNat) = st.iPeriod * 60 := by
      simp [Int.toNat_of_nonneg (by omega : (0 : Int) ≤ st.iPeriod * 60)]
    rw [hofNat] at hh
    rcases hr : runTimerLoop btn (st.iPeriod * 60).toNat 0 5 with ⟨tr, e⟩
    rw [hr] at hh
    cases e with
    | true => simpa using hh
    | false =>
      rcases tr with _ | ⟨x, tl⟩
      · simp at hh
      · simpa using hh

/-- Witness for C10 at iSecs = 125, period p = 10 and the default record. -/
theorem showTime_rendering_witness :
    ShowTime 125 =
      [48, (125 : Int) / 60 + 48, 58, (125 : Int) % 60 / 10 + 48,
        (125 : Int) % 60 % 10 + 48] ∧
    (ShowTime ((10 : Int) * 60)).get? 1 = some (10 + 48) ∧
    Int.tmod 125 10 = Int.tmod (Int.tmod 125 60) 10 ∧
    (RunTimer (fun _ => 0) defaultState).head? =
      some (Ev.showTime (defaultState.iPeriod * 60)) :=
  ⟨((showTime_rendering 125 10 (fun _ => 0) defaultState).1 (by norm_num) (by norm_num)).1,
   ((showTime_rendering 125 10 (fun _ => 0) defaultState).2.1 (by norm_num)).1,
   (showTime_rendering 125 10 (fun _ => 0) defaultState).2.2.1 (by norm_num),
   (showTime_rendering 125 10 (fun _ => 0) defaultState).2.2.2 (by decide)⟩

theorem countP_ite_singleton (p : Ev → Bool) (c : Prop) [Decidable c] (x : Ev)
    (hx : p x = false) : (if c then [x] else []).countP p = 0 := by
  split <;> simp [List.countP_cons, List.countP_nil, hx]

theorem timerTickEvs_countP (p : Ev → Bool) (hOled : ∀ b, p (Ev.oledPower b) = false)
    (hBlink : ∀ pin ms, p (Ev.blinkLED pin ms) = false) (j i : Nat) (t : Int) :
    (timerTickEvs j i t).countP p = 0 := by
  rw [timerTickEvs, List.countP_append, List.countP_append, List.countP_append]
  rw [countP_ite_singleton p _ _ (hOled true), countP_ite_singleton p _ _ (hOled true),
    countP_ite_singleton p _ _ (hOled false)]
  simp [List.countP_cons, List.countP_nil, hBlink]



theorem runTimerLoop_complete (btn : Nat → Nat) :
    ∀ (i k : Nat) (t : Int), (∀ d, d ≤ i → btn (k + d) ≠ 3) →
      (runTimerLoop btn i k t).2 = false ∧
      (runTimerLoop btn i k t).1.countP isShowTime = i + 1 ∧
      (runTimerLoop btn i k t).1.countP isAlertEv = 0 := by
  intro i
  induction i with
  | zero =>
    intro k t h
    have hb : btn k ≠ 3 := by simpa using h 0 (le_refl 0)
    rw [runTimerLoop, if_neg hb]
    refine ⟨rfl, ?_, ?_⟩
    · rw [List.countP_append, timerTickEvs_countP isShowTime (fun _ => rfl) (fun _ _ => rfl)]
      rfl
    · rw [List.countP_append, timerTickEvs_countP isAlertEv (fun _ => rfl) (fun _ _ => rfl)]
      rfl
  | succ n ih =>
    intro k t h
    have hb : btn k ≠ 3 := by simpa using h 0 (Nat.zero_le _)
    have hrest := ih (k + 1) (timerTicksNext (btn k) (n + 1) t) (fun d hd => by
      have := h (d + 1) (by omega)
      rwa [show k + (d + 1) = k + 1 + d by omega] at this)
    rw [runTimerLoop]
    rw [if_neg hb]
    refine ⟨hrest.1, ?_, ?_⟩
    · rw [List.countP_cons, List.countP_append,
        timerTickEvs_countP isShowTime (fun _ => rfl) (fun _ _ => rfl), hrest.2.1]
      norm_num [isShowTime]
    · rw [List.countP_cons, List.countP_append,
        timerTickEvs_countP isAlertEv (fun _ => rfl) (fun _ _ => rfl), hrest.2.2]
      norm_num [isAlertEv]

theorem runTimerLoop_early (btn : Nat → Nat) :
    ∀ (d0 i k : Nat) (t : Int), d0 ≤ i → btn (k + d0) = 3 →
      (∀ d, d < d0 → btn (k + d) ≠ 3) →
      (runTimerLoop btn i k t).2 = true ∧
      (runTimerLoop btn i k t).1.countP isShowTime = d0 + 1 ∧
      (runTimerLoop btn i k t).1.countP isAlertEv = 0 := by
  intro d0
  induction d0 with
  | zero =>
    intro i k t _ h3 _
    have hb : btn k = 3 := by simpa using h3
    cases i with
    | zero => rw [runTimerLoop, if_pos hb]; exact ⟨rfl, rfl, rfl⟩
    | succ n => rw [runTimerLoop, if_pos hb]; exact ⟨rfl, rfl, rfl⟩
  | succ d ih =>
    intro i k t hle h3 hlt
    have hb : btn k ≠ 3 := by simpa using hlt 0 (by omega)
    cases i with
    | zero => omega
    | succ n =>
      have hrest := ih n (k + 1) (timerTicksNext (btn k) (n + 1) t) (by omega)
        (by rwa [show k + 1 + d = k + (d + 1) by omega])
        (fun d' hd' => by
          have := hlt (d' + 1) (by omega)
          rwa [show k + (d' + 1) = k + 1 + d' by omega] at this)
      rw [runTimerLoop]
      rw [if_neg hb]
      refine ⟨hrest.1, ?_, ?_⟩
      · rw [List.countP_cons, List.countP_append,
          timerTickEvs_countP isShowTime (fun _ => rfl) (fun _ _ => rfl), hrest.2.1]
        norm_num [isShowTime]
      · rw [List.countP_cons, List.countP_append,
          timerTickEvs_countP isAlertEv (fun _ => rfl) (fun _ _ => rfl), hrest.2.2]
        norm_num [isAlertEv]

theorem runTimerLoop_no_sensor (btn : Nat → Nat) :
    ∀ (i k : Nat) (t : Int),
      (runTimerLoop btn i k t).1.countP isScdStart = 0 ∧
      (runTimerLoop btn i k t).1.countP isScdStop = 0 := by
  intro i
  induction i with
  | zero =>
    intro k t
    rw [runTimerLoop]
    split
    · exact ⟨rfl, rfl⟩
    · refine ⟨?_, ?_⟩
      · rw [List.countP_append,
          timerTickEvs_countP isScdStart (fun _ => rfl) (fun _ _ => rfl)]
        rfl
      · rw [List.countP_append,
          timerTickEvs_countP isScdStop (fun _ => rfl) (fun _ _ => rfl)]
        rfl
  | succ n ih =>
    intro k t
    rw [runTimerLoop]
    split
    · exact ⟨rfl, rfl⟩
    · have hrest := ih (k + 1) (timerTicksNext (btn k) (n + 1) t)
      refine ⟨?_, ?_⟩
      · rw [List.countP_cons, List.countP_append,
          timerTickEvs_countP isScdStart (fun _ => rfl) (fun _ _ => rfl), hrest.1]
        norm_num [isScdStart]
      · rw [List.countP_cons, List.countP_append,
          timerTickEvs_countP isScdStop (fun _ => rfl) (fun _ _ => rfl), hrest.2]
        norm_num [isScdStop]

theorem countP_ite_nil (p : Ev → Bool) (c : Prop) [Decidable c] (l : List Ev)
    (hl : l.countP p = 0) : (if c then l else []).countP p = 0 := by
  split
  · exact hl
  · rfl

theorem lowPowerCue_countP (p : Ev → Bool)
    (hBlink : ∀ pin ms, p (Ev.blinkLED pin ms) = false) (c : Int) :
    (lowPowerCue c).countP p = 0 := by
  rw [lowPowerCue]
  split_ifs <;> simp [List.countP_cons, List.countP_nil, hBlink]

theorem runLowPowerLoop_counts (co2 : Nat → Int) :
    ∀ (bs : List Nat) (sIdx : Nat) (u sT : Int) (tr : List Ev),
      runLowPowerLoop co2 bs sIdx u sT = some tr →
      tr.countP isScdStart = 0 ∧ tr.countP isScdStop = 1 := by
  intro bs
  induction bs with
  | nil =>
    intro sIdx u sT tr h
    rw [runLowPowerLoop] at h
    exact absurd h (by simp)
  | cons b bs ih =>
    intro sIdx u sT tr h
    rw [runLowPowerLoop] at h
    split at h
    · obtain rfl : [Ev.scdStop] = tr := by simpa using h
      exact ⟨rfl, rfl⟩
    · dsimp only at h
      split at h
      · exact absurd h (by simp)
      · rename_i tr0 hrec
        have h1 := Option.some.inj h
        subst h1
        have h0 := ih _ _ _ _ hrec
        constructor
        · rw [List.countP_append, List.countP_append, List.countP_append]
          rw [countP_ite_nil _ _ _ (by rfl), countP_ite_nil _ _ _ (by
            rw [List.countP_cons, lowPowerCue_countP isScdStart (fun _ _ => rfl)]
            rfl)]
          rw [countP_ite_nil _ _ _ (by rfl), h0.1]
        · rw [List.countP_append, List.countP_append, List.countP_append]
          rw [countP_ite_nil _ _ _ (by rfl), countP_ite_nil _ _ _ (by
            rw [List.countP_cons, lowPowerCue_countP isScdStop (fun _ _ => rfl)]
            rfl)]
          rw [countP_ite_nil _ _ _ (by rfl), h0.2]

theorem stealthBuzz_countP_zero (p : Ev → Bool) (hv : ∀ ms, p (Ev.vibrate ms) = false) :
    ∀ n, (stealthBuzz n).countP p = 0 := by
  intro n
  induction n with
  | zero => rfl
  | succ n ih => simp [stealthBuzz, List.countP_cons, ih, hv]

theorem runStealthLoop_counts (co2 : Nat → Int) (iUpdate : Int) :
    ∀ (bs : List Nat) (sIdx : Nat) (iTick iLevel : Int) (tr : List Ev),
      runStealthLoop co2 iUpdate bs sIdx iTick iLevel = some tr →
      tr.countP isScdStart = 0 ∧ tr.countP isScdStop = 1 := by
  intro bs
  induction bs with
  | nil =>
    intro sIdx iTick iLevel tr h
    rw [runStealthLoop] at h
    exact absurd h (by simp)
  | cons b bs ih =>
    intro sIdx iTick iLevel tr h
    rw [runStealthLoop] at h
    split at h
    · obtain rfl : [Ev.scdStop] = tr := by simpa using h
      exact ⟨rfl, rfl⟩
    · dsimp only at h
      split at h
      · exact absurd h (by simp)
      · rename_i tr0 hrec
        have h1 := Option.some.inj h
        subst h1
        have h0 := ih _ _ _ _ hrec
        constructor
        · rw [List.countP_append, List.countP_append,
            countP_ite_nil _ _ _ (by rfl),
            countP_ite_nil _ _ _ (stealthBuzz_countP_zero isScdStart (fun _ => rfl) _),
            h0.1]
        · rw [List.countP_append, List.countP_append,
            countP_ite_nil _ _ _ (by rfl),
            countP_ite_nil _ _ _ (stealthBuzz_countP_zero isScdStop (fun _ => rfl) _),
            h0.2]

theorem contLoop_counts (st : STATE) :
    ∀ (fuel : Nat) (bs : List Nat) (n : Nat) (tr : List Ev),
      contLoop st fuel bs n = some tr →
      tr.countP isScdStart = 0 ∧ tr.countP isScdStop = 1 := by
  intro fuel
  induction fuel with
  | zero =>
    intro bs n tr h
    rw [contLoop] at h
    exact absurd h (by simp)
  | succ f ih =>
    intro bs n tr h
    rw [contLoop] at h
    split at h
    · exact absurd h (by simp)
    · have h1 := Option.some.inj h
      subst h1
      constructor <;>
        · rw [List.countP_append, List.countP_cons, List.countP_append,
            countP_ite_nil _ _ _ (by rfl)]
          rfl
    · split at h
      · exact absurd h (by simp)
      · rename_i tr0 hrec
        have h1 := Option.some.inj h
        subst h1
        have h0 := ih _ _ _ hrec
        constructor
        · rw [List.countP_append, List.countP_cons, List.countP_append,
            countP_ite_nil _ _ _ (by rfl), h0.1]
          rfl
        · rw [List.countP_append, List.countP_cons, List.countP_append,
            countP_ite_nil _ _ _ (by rfl), h0.2]
          rfl

theorem runTimer_sensor_counts (btn : Nat → Nat) (st : STATE) :
    (RunTimer btn st).countP isScdStart = 0 ∧ (RunTimer btn st).countP isScdStop = 0 := by
  rw [RunTimer]
  split
  · exact ⟨rfl, rfl⟩
  · dsimp only
    split
    · exact runTimerLoop_no_sensor btn _ 0 5
    · have h := runTimerLoop_no_sensor btn ((st.iPeriod * 60).toNat) 0 5
      constructor
      · rw [List.countP_append, h.1]; rfl
      · rw [List.countP_append, h.2]; rfl

theorem calCountdown_counts :
    ∀ (i : Nat) (bs : List Nat) (tr : List Ev) (q : Bool) (rest : List Nat),
      calCountdown i bs = some (tr, q, rest) →
      tr.countP isScdStart = 0 ∧ tr.countP isRecal = 0 ∧
      (q = true → tr.countP isScdStop = 1) ∧
      (q = false → tr.countP isScdStop = 0 ∧ tr.countP isShowTime = i + 1) := by
  intro i
  induction i with
  | zero =>
    intro bs tr q rest h
    cases bs with
    | nil => rw [calCountdown] at h; exact absurd h (by simp)
    | cons b bs' =>
      rw [calCountdown] at h
      split at h
      · simp only [Option.some.injEq, Prod.mk.injEq] at h
        obtain ⟨h1, h2, h3⟩ := h
        subst h1; subst h2
        exact ⟨rfl, rfl, fun _ => rfl, fun hq => by simp at hq⟩
      · simp only [Option.some.injEq, Prod.mk.injEq] at h
        obtain ⟨h1, h2, h3⟩ := h
        subst h1; subst h2
        exact ⟨rfl, rfl, fun hq => by simp at hq, fun _ => ⟨rfl, rfl⟩⟩
  | succ n ih =>
    intro bs tr q rest h
    cases bs with
    | nil => rw [calCountdown] at h; exact absurd h (by simp)
    | cons b bs' =>
      rw [calCountdown] at h
      split at h
      · simp only [Option.some.injEq, Prod.mk.injEq] at h
        obtain ⟨h1, h2, h3⟩ := h
        subst h1; subst h2
        exact ⟨rfl, rfl, fun _ => rfl, fun hq => by simp at hq⟩
      · split at h
        · exact absurd h (by simp)
        · rename_i tr0 q0 rest0 hrec
          simp only [Option.some.injEq, Prod.mk.injEq] at h
          obtain ⟨h1, h2, h3⟩ := h
          subst h1; subst h2
          have h0 := ih _ _ _ _ hrec
          refine ⟨?_, ?_, fun hq => ?_, fun hq => ⟨?_, ?_⟩⟩
          · rw [List.countP_cons, h0.1]; rfl
          · rw [List.countP_cons, h0.2.1]; rfl
          · rw [List.countP_cons, h0.2.2.1 hq]; rfl
          · rw [List.countP_cons, (h0.2.2.2 hq).1]; rfl
          · rw [List.countP_cons, (h0.2.2.2 hq).2]
            norm_num [isShowTime]

theorem runCalibrate_analysis (bs : List Nat) (ok : Bool) (tr : List Ev)
    (h : RunCalibrate bs ok = some tr) :
    ((tr.countP isScdStart = 0 ∧ tr.countP isScdStop = 0 ∧ tr.countP isRecal = 0) ∨
      (tr.countP isScdStart = 1 ∧ tr.countP isScdStop = 1)) ∧
    (tr.countP isRecal ≠ 0 →
      tr.countP isShowTime = 211 ∧ tr.countP isRecal = 1 ∧
      Ev.scdRecalibrate 423 ∈ tr ∧ Ev.calResult ok ∈ tr) := by
  rw [RunCalibrate] at h
  split at h
  · exact absurd h (by simp)
  · split at h
    · exact absurd h (by simp)
    · split at h
      · obtain rfl : ([] : List Ev) = tr := by simpa using h
        exact ⟨Or.inl ⟨rfl, rfl, rfl⟩, fun hc => absurd rfl hc⟩
      · split at h
        · exact absurd h (by simp)
        · rename_i tr0 rest0 hrec
          have h1 := Option.some.inj h
          subst h1
          have h0 := calCountdown_counts _ _ _ _ _ hrec
          constructor
          · refine Or.inr ⟨?_, ?_⟩
            · rw [List.countP_cons, h0.1]; rfl
            · rw [List.countP_cons, h0.2.2.1 rfl]; rfl
          · intro hc
            exact absurd (by rw [List.countP_cons, h0.2.1]; rfl) hc
        · rename_i tr0 bs3v hrec
          split at h
          · exact absurd h (by simp)
          · have h1 := Option.some.inj h
            subst h1
            have h0 := calCountdown_counts _ _ _ _ _ hrec
            have hstop := (h0.2.2.2 rfl).1
            have hshow := (h0.2.2.2 rfl).2
            constructor
            · refine Or.inr ⟨?_, ?_⟩
              · rw [List.countP_append, List.countP_cons, h0.1]
                norm_num [isScdStart]
              · rw [List.countP_append, List.countP_cons, hstop]
                norm_num [isScdStop]
            · intro _
              refine ⟨?_, ?_, ?_, ?_⟩
              · rw [List.countP_append, List.countP_cons, hshow]
                norm_num [isShowTime]
              · rw [List.countP_append, List.countP_cons, h0.2.1]
                norm_num [isRecal]
              · simp [List.mem_cons, List.mem_append]
              · simp [List.mem_cons, List.mem_append]

/-- Counterexample to claim C3: a RunTimer session issues no scd41_start
call at all (and no scd41_stop), refuting "each session issues exactly
one Sensor start call on entry" for the Timer run-mode. -/
theorem runTimer_no_sensor_start_cex :
    ¬ (RunTimer (fun _ => 0) ⟨MODE_TIMER, 0, 30, 5⟩).countP isScdStart = 1 ∧
    (RunTimer (fun _ => 0) ⟨MODE_TIMER, 0, 30, 5⟩).countP isScdStart = 0 ∧
    (RunTimer (fun _ => 0) ⟨MODE_TIMER, 0, 30, 5⟩).countP isScdStop = 0 := by
  have h := runTimer_sensor_counts (fun _ => 0) ⟨MODE_TIMER, 0, 30, 5⟩
  exact ⟨by rw [h.1]; norm_num, h.1, h.2⟩

/-- Claim C3 as amended: the run-modes that use the sensor pair the calls
exactly — LowPower, Stealth and the continuous loop issue exactly one
scd41_start and exactly one scd41_stop on every terminating session, and
Calibrate issues either none of each (exit at the prompt) or exactly one
of each; RunTimer issues no sensor start or stop at all. -/
theorem sensor_start_stop_pairing (btn : Nat → Nat) (co2 : Nat → Int)
    (st : STATE) (bs : List Nat) (fuel n : Nat) (ok : Bool) (tr : List Ev) :
    ((RunTimer btn st).countP isScdStart = 0 ∧ (RunTimer btn st).countP isScdStop = 0) ∧
    (RunLowPower co2 bs = some tr →
      tr.countP isScdStart = 1 ∧ tr.countP isScdStop = 1) ∧
    (RunStealth co2 st bs = some tr →
      tr.countP isScdStart = 1 ∧ tr.countP isScdStop = 1) ∧
    (RunContinuous st fuel bs n = some tr →
      tr.countP isScdStart = 1 ∧ tr.countP isScdStop = 1) ∧
    (RunCalibrate bs ok = some tr →
      (tr.countP isScdStart = 0 ∧ tr.countP isScdStop = 0) ∨
      (tr.countP isScdStart = 1 ∧ tr.countP isScdStop = 1)) := by
  refine ⟨runTimer_sensor_counts btn st, fun h => ?_, fun h => ?_, fun h => ?_, fun h => ?_⟩
  · rw [RunLowPower] at h
    split at h
    · exact absurd h (by simp)
    · rename_i tr0 hrec
      have h1 := Option.some.inj h
      subst h1
      have h0 := runLowPowerLoop_counts co2 _ _ _ _ _ hrec
      constructor
      · rw [List.countP_cons, h0.1]; rfl
      · rw [List.countP_cons, h0.2]; rfl
  · rw [RunStealth] at h
    split at h
    · exact absurd h (by simp)
    · split at h
      · exact absurd h (by simp)
      · split at h
        · exact absurd h (by simp)
        · rename_i tr0 hrec
          have h1 := Option.some.inj h
          subst h1
          have h0 := runStealthLoop_counts co2 _ _ _ _ _ _ hrec
          constructor
          · rw [List.countP_cons, List.countP_cons, h0.1]; rfl
          · rw [List.countP_cons, List.countP_cons, h0.2]; rfl
  · rw [RunContinuous] at h
    split at h
    · exact absurd h (by simp)
    · rename_i tr0 hrec
      have h1 := Option.some.inj h
      subst h1
      have h0 := contLoop_counts st _ _ _ _ hrec
      constructor
      · rw [List.countP_cons, h0.1]; rfl
      · rw [List.countP_cons, h0.2]; rfl
  · exact (runCalibrate_analysis bs ok tr h).1.imp (fun hx => ⟨hx.1, hx.2.1⟩) id

/-- Witness for the amended C3: concrete short sessions of each mode. -/
theorem sensor_start_stop_pairing_witness :
    ((RunTimer (fun _ => 0) defaultState).countP isScdStart = 0 ∧
      (RunTimer (fun _ => 0) defaultState).countP isScdStop = 0) ∧
    (([Ev.scdStart true, Ev.scdStop] : List Ev).countP isScdStart = 1 ∧
      ([Ev.scdStart true, Ev.scdStop] : List Ev).countP isScdStop = 1) ∧
    (([Ev.oledPower false, Ev.scdStart false, Ev.scdStop] : List Ev).countP isScdStart = 1 ∧
      ([Ev.oledPower false, Ev.scdStart false, Ev.scdStop] : List Ev).countP isScdStop = 1) ∧
    (([Ev.scdStart false, Ev.scdGetSample, Ev.showCurrent, Ev.scdStop] : List Ev).countP
        isScdStart = 1 ∧
      ([Ev.scdStart false, Ev.scdGetSample, Ev.showCurrent, Ev.scdStop] : List Ev).countP
        isScdStop = 1) ∧
    ((([] : List Ev).countP isScdStart = 0 ∧ ([] : List Ev).countP isScdStop = 0) ∨
      (([] : List Ev).countP isScdStart = 1 ∧ ([] : List Ev).countP isScdStop = 1)) :=
  ⟨(sensor_start_stop_pairing (fun _ => 0) (fun _ => 0) defaultState [3] 1 0 true []).1,
   (sensor_start_stop_pairing (fun _ => 0) (fun _ => 0) defaultState [3] 1 0 true
      [Ev.scdStart true, Ev.scdStop]).2.1 (by decide),
   (sensor_start_stop_pairing (fun _ => 0) (fun _ => 0) defaultState [0, 1, 3] 1 0 true
      [Ev.oledPower false, Ev.scdStart false, Ev.scdStop]).2.2.1 (by decide),
   (sensor_start_stop_pairing (fun _ => 0) (fun _ => 0) defaultState [3] 1 0 true
      [Ev.scdStart false, Ev.scdGetSample, Ev.showCurrent, Ev.scdStop]).2.2.2.1 (by decide),
   (sensor_start_stop_pairing (fun _ => 0) (fun _ => 0) defaultState [0, 3] 1 0 true
      []).2.2.2.2 (by decide)⟩

/-- Claim C4: with timerPeriodMinutes = p ≥ 1 the countdown performs
exactly p*60 + 1 ShowTime ticks (61 for p = 1) and invokes ShowAlert
exactly once, as the final event after the tick at 0; if the exit
gesture (mask 3) is first observed at an earlier tick, RunTimer returns
with that tick's display done and ShowAlert is never invoked. -/
theorem runTimer_ticks_and_alert (btn : Nat → Nat) (st : STATE) (h1 : 1 ≤ st.iPeriod) :
    ((∀ d, d ≤ (st.iPeriod * 60).toNat → btn d ≠ 3) →
      (RunTimer btn st).countP isShowTime = (st.iPeriod * 60).toNat + 1 ∧
      (RunTimer btn st).countP isAlertEv = 1 ∧
      (RunTimer btn st).getLast? = some Ev.showAlert) ∧
    (∀ d0, d0 < (st.iPeriod * 60).toNat → btn d0 = 3 → (∀ d, d < d0 → btn d ≠ 3) →
      (RunTimer btn st).countP isShowTime = d0 + 1 ∧
      (RunTimer btn st).countP isAlertEv = 0) ∧
    (st.iPeriod = 1 → (st.iPeriod * 60).toNat + 1 = 61) := by
  have hnn : ¬ st.iPeriod * 60 < 0 := by omega
  refine ⟨fun hno => ?_, fun d0 hd0 h3 hlt => ?_, fun hp => by rw [hp]; rfl⟩
  · have hc := runTimerLoop_complete btn ((st.iPeriod * 60).toNat) 0 5
      (fun d hd => by simpa using hno d hd)
    have hRT : RunTimer btn st =
        (runTimerLoop btn ((st.iPeriod * 60).toNat) 0 5).1 ++ [Ev.showAlert] := by
      rw [RunTimer, if_neg hnn]
      dsimp only
      rw [hc.1]
      simp
    rw [hRT]
    refine ⟨?_, ?_, ?_⟩
    · rw [List.countP_append, hc.2.1]; rfl
    · rw [List.countP_append, hc.2.2]; rfl
    · exact List.getLast?_concat _
  · have hc := runTimerLoop_early btn d0 ((st.iPeriod * 60).toNat) 0 5 (by omega)
      (by simpa using h3) (fun d hd => by simpa using hlt d hd)
    have hRT : RunTimer btn st = (runTimerLoop btn ((st.iPeriod * 60).toNat) 0 5).1 := by
      rw [RunTimer, if_neg hnn]
      dsimp only
      rw [hc.1]
      simp
    rw [hRT]
    exact ⟨hc.2.1, hc.2.2⟩

/-- Witness for C4: a one-minute timer with no buttons pressed performs
61 ticks and one alert; with both buttons pressed at tick index 2 it
performs 3 ticks and no alert. -/
theorem runTimer_ticks_and_alert_witness :
    (RunTimer (fun _ => 0) ⟨MODE_TIMER, 0, 30, 1⟩).countP isShowTime =
      (((⟨MODE_TIMER, 0, 30, 1⟩ : STATE).iPeriod * 60).toNat + 1) ∧
    (RunTimer (fun _ => 0) ⟨MODE_TIMER, 0, 30, 1⟩).countP isAlertEv = 1 ∧
    (RunTimer (fun k => if k = 2 then 3 else 0) ⟨MODE_TIMER, 0, 30, 1⟩).countP
      isShowTime = 3 ∧
    (RunTimer (fun k => if k = 2 then 3 else 0) ⟨MODE_TIMER, 0, 30, 1⟩).countP
      isAlertEv = 0 :=
  have hA := (runTimer_ticks_and_alert (fun _ => 0) ⟨MODE_TIMER, 0, 30, 1⟩
    (by norm_num)).1 (fun d _ => by norm_num)
  have hB := (runTimer_ticks_and_alert (fun k => if k = 2 then 3 else 0)
    ⟨MODE_TIMER, 0, 30, 1⟩ (by norm_num)).2.1 2 (by norm_num) (by norm_num)
    (fun d hd => by interval_cases d <;> norm_num)
  ⟨hA.1, hA.2.1, hB.1, hB.2⟩

set_option maxRecDepth 10000 in
/-- Counterexample to claim C6: on a run that reaches recalibration, the
countdown displays 211 ticks (210 down to 0), not a fixed 180 seconds,
and the recalibration reference passed to scd41_recalibrate is 423 ppm,
not 420. -/
theorem runCalibrate_duration_cex :
    (RunCalibrate (0 :: 1 :: (List.replicate 211 0 ++ [1])) true).map
        (fun tr => tr.countP isShowTime) = some 211 ∧
    (RunCalibrate (0 :: 1 :: (List.replicate 211 0 ++ [1])) true).map
        (fun tr => tr.count (Ev.scdRecalibrate 420)) = some 0 ∧
    (RunCalibrate (0 :: 1 :: (List.replicate 211 0 ++ [1])) true).map
        (fun tr => tr.count (Ev.scdRecalibrate 423)) = some 1 ∧
    (211 : Nat) ≠ 180 := by
  refine ⟨by decide, by decide, by decide, by decide⟩

/-- Claim C6 as amended: RunCalibrate waits for a confirming press, then
runs a 211-second normal-power countdown (210 down to 0, each second
displayed via ShowTime), stops the sensor, invokes scd41_recalibrate
with the 423 ppm reference, displays the Success/Failure result and
waits for a button press before exiting; on every run that reaches
recalibration the trace holds exactly 211 countdown ticks and exactly
one recalibrate call, with argument 423. -/
theorem runCalibrate_amended (bs : List Nat) (ok : Bool) (tr : List Ev)
    (h : RunCalibrate bs ok = some tr) (hdone : tr.countP isRecal ≠ 0) :
    tr.countP isShowTime = 211 ∧ tr.countP isRecal = 1 ∧
    Ev.scdRecalibrate 423 ∈ tr ∧ Ev.calResult ok ∈ tr :=
  (runCalibrate_analysis bs ok tr h).2 hdone

set_option maxRecDepth 10000 in
/-- Witness for the amended C6 on a concrete complete run. -/
theorem runCalibrate_amended_witness :
    (RunCalibrate (0 :: 1 :: (List.replicate 211 0 ++ [1])) true).map
        (fun tr => tr.countP isShowTime) = some 211 ∧
    (RunCalibrate (0 :: 1 :: (List.replicate 211 0 ++ [1])) true).map
        (fun tr => tr.countP isRecal) = some 1 := by
  rcases hcal : RunCalibrate (0 :: 1 :: (List.replicate 211 0 ++ [1])) true with _ | tr
  · exact absurd hcal (by decide)
  · have hrec : (RunCalibrate (0 :: 1 :: (List.replicate 211 0 ++ [1])) true).map
        (fun tr => tr.countP isRecal) = some 1 := by decide
    rw [hcal] at hrec
    simp only [Option.map_some'] at hrec
    have hone : tr.countP isRecal = 1 := by simpa using hrec
    have h := runCalibrate_amended _ _ _ hcal (by rw [hone]; norm_num)
    simp only [Option.map_some']
    exact ⟨by rw [h.1], by rw [hone]⟩

theorem contLoop_no_oledOff (st : STATE) (hmode : st.iMode = MODE_CONTINUOUS) :
    ∀ (fuel : Nat) (bs : List Nat) (n : Nat) (tr : List Ev),
      contLoop st fuel bs n = some tr → tr.countP isOledOff = 0 := by
  intro fuel
  induction fuel with
  | zero =>
    intro bs n tr h
    rw [contLoop] at h
    exact absurd h (by simp)
  | succ f ih =>
    intro bs n tr h
    rw [contLoop] at h
    split at h
    · exact absurd h (by simp)
    · have h1 := Option.some.inj h
      subst h1
      rw [List.countP_append, List.countP_cons, List.countP_append,
        if_neg (by simp [hmode])]
      rfl
    · split at h
      · exact absurd h (by simp)
      · rename_i tr0 hrec
        have h1 := Option.some.inj h
        subst h1
        rw [List.countP_append, List.countP_cons, List.countP_append,
          if_neg (by simp [hmode]), ih _ _ _ hrec]
        rfl

/-- Claim C9: the display-off statement in the continuous-mode loop,
guarded by iSample == 16 && state.iMode != MODE_CONTINUOUS, is never
executed: the main dispatch reaches that loop only when the enumerated
mode is Continuous, and with iMode = MODE_CONTINUOUS no run of the loop
ever emits a display power-off, so the display stays on throughout
Continuous mode. -/
theorem continuous_display_off_dead (m : Int) (st : STATE) (fuel n : Nat)
    (bs : List Nat) (tr : List Ev) :
    (0 ≤ m → m < MODE_COUNT → mainDispatch m = Branch.continuous → m = MODE_CONTINUOUS) ∧
    (st.iMode = MODE_CONTINUOUS → contLoop st fuel bs n = some tr →
      tr.countP isOledOff = 0) := by
  refine ⟨fun h0 h5 hd => ?_, fun hm h => contLoop_no_oledOff st hm fuel bs n tr h⟩
  have h5' : m < 5 := h5
  interval_cases m
  · rfl
  · exact absurd hd (by decide)
  · exact absurd hd (by decide)
  · exact absurd hd (by decide)
  · exact absurd hd (by decide)

/-- Witness for C9: mode 0 dispatches to the continuous branch, and a
one-iteration continuous session with mode Continuous emits no display
power-off event. -/
theorem continuous_display_off_dead_witness :
    (0 : Int) = MODE_CONTINUOUS ∧
    ([Ev.scdGetSample, Ev.showCurrent, Ev.scdStop] : List Ev).countP isOledOff = 0 :=
  ⟨(continuous_display_off_dead 0 defaultState 1 0 [3] []).1
      (by decide) (by decide) (by decide),
   (continuous_display_off_dead 0 defaultState 1 0 [3]
      [Ev.scdGetSample, Ev.showCurrent, Ev.scdStop]).2 (by decide) (by decide)⟩
